import Mathlib

/-!
Verification of the training driver script `run.py` of the
Patch-Description-Generation repository.

The script parses command-line flags, loads a tokenizer and a causal
language model, optionally prepares the model for int8 training, wraps it
with LoRA adapters, builds a `TrainingArguments` record, a data collator
and a `DualObjectiveTrainer`, runs training, and saves the adapter
weights.  We embed the script shallowly: the observable behaviour of one
invocation is a list of framework-call events carrying the arguments the
script passes, produced by `run_with` below.  Python floats that appear
only as pass-through hyperparameters (`alpha`, `learning_rate`,
`lora_dropout`) are modelled as rationals; every literal used by the
script (0.5, 1e-4, 0.05) is exactly representable in binary floating
point, so the identification is faithful.
-/

namespace RunPy

/-- The argparse namespace produced by `parser.parse_args()` in `main`
(run.py lines 120-134).  `batch_size` is a Python int (unbounded),
`load_in_8bit` a store_true flag, `alpha` a float (modelled as a
rational). -/
structure Args where
  batch_size : Int
  load_in_8bit : Bool
  output_dir : String
  model_id : String
  dataset_id : String
  alpha : ℚ
deriving DecidableEq, Repr

/-- A command line, abstracted to which of the five valued flags were
supplied (`none` means the flag was omitted) and whether the
`--load_in_8bit` switch was present (argparse action=store_true:
presence means true). -/
structure CmdLine where
  batch_size : Option Int
  load_in_8bit : Bool
  output_dir : Option String
  model_id : Option String
  dataset_id : Option String
  alpha : Option ℚ
deriving DecidableEq, Repr

/-- `main`'s argument parser (run.py lines 121-134): each omitted flag
takes the default declared in the corresponding `add_argument` call. -/
def parse_args (c : CmdLine) : Args :=
  { batch_size := c.batch_size.getD 8
    load_in_8bit := c.load_in_8bit
    output_dir := c.output_dir.getD "tmp"
    model_id := c.model_id.getD "codellama/CodeLlama-7b-hf"
    dataset_id := c.dataset_id.getD "zhaospei/cmg_allinone"
    alpha := c.alpha.getD (1/2) }

/-- The slice of Hugging Face tokenizer state that run.py reads or
writes: `pad_token`, `eos_token` (special tokens may be unset, hence
Option) and `padding_side`. -/
structure Tokenizer where
  eos_token : Option String
  pad_token : Option String
  padding_side : String
deriving DecidableEq, Repr

/-- peft task types; run.py uses only CAUSAL_LM. -/
inductive TaskType where
  | CAUSAL_LM
deriving DecidableEq, Repr

/-- The peft `LoraConfig` fields set at run.py lines 30-37. -/
structure LoraConfig where
  task_type : TaskType
  inference_mode : Bool
  r : Nat
  lora_alpha : Nat
  lora_dropout : ℚ
  target_modules : List String
deriving DecidableEq, Repr

/-- The `peft_config` literal built inside `create_peft_config`
(run.py lines 30-37). -/
def peft_config : LoraConfig :=
  { task_type := TaskType.CAUSAL_LM
    inference_mode := false
    r := 8
    lora_alpha := 32
    lora_dropout := 5/100
    target_modules := ["q_proj", "v_proj"] }

/-- The `config` dictionary of run.py lines 52-59: the LoRA config plus
five training hyperparameters. -/
structure ConfigDict where
  lora_config : LoraConfig
  learning_rate : ℚ
  num_train_epochs : Nat
  gradient_accumulation_steps : Nat
  per_device_train_batch_size : Int
  gradient_checkpointing : Bool
deriving DecidableEq, Repr

/-- run.py lines 52-59. -/
def config (args : Args) (lora_config : LoraConfig) : ConfigDict :=
  { lora_config := lora_config
    learning_rate := 1/10000
    num_train_epochs := 1
    gradient_accumulation_steps := 2
    per_device_train_batch_size := args.batch_size
    gradient_checkpointing := false }

/-- The `TrainingArguments` fields run.py sets (lines 85-98), including
the five entries splatted from `config` (every key except
`lora_config`). -/
structure TrainingArguments where
  output_dir : String
  overwrite_output_dir : Bool
  bf16 : Bool
  logging_dir : String
  logging_strategy : String
  logging_steps : Nat
  save_strategy : String
  optim : String
  remove_unused_columns : Bool
  max_steps : Int
  learning_rate : ℚ
  num_train_epochs : Nat
  gradient_accumulation_steps : Nat
  per_device_train_batch_size : Int
  gradient_checkpointing : Bool
deriving DecidableEq, Repr

/-- Profiler schedule parameters, run.py line 63. -/
def profiler_wait : Nat := 1

/-- Profiler schedule parameters, run.py line 63. -/
def profiler_warmup : Nat := 1

/-- Profiler schedule parameters, run.py line 63. -/
def profiler_active : Nat := 2

/-- Profiler schedule parameters, run.py line 63. -/
def profiler_repeat : Nat := 1

/-- total_steps = (wait + warmup + active) * (1 + repeat), run.py
line 64. -/
def total_steps : Nat :=
  (profiler_wait + profiler_warmup + profiler_active) * (1 + profiler_repeat)

/-- The context manager entered at run.py line 102: either the torch
profiler built at lines 66-71 (carrying its schedule total and trace
directory) or `nullcontext()` (line 82). -/
inductive ProfilerCtx where
  | profile (schedule_total : Nat) (trace_dir : String)
  | nullcontext
deriving DecidableEq, Repr

/-- Trainer callbacks run.py can register: only the ProfilerCallback of
lines 73-80. -/
inductive Callback where
  | profiler_callback
deriving DecidableEq, Repr

/-- The constructor arguments of `DualObjectiveTrainer` that run.py
passes (lines 104-113), restricted to plain configuration values (model,
dataset and collator objects are opaque framework values carrying no
script-chosen configuration). -/
structure Trainer where
  alpha : ℚ
  output_rationale : Bool
  training_args : TrainingArguments
  tokenizer : Tokenizer
  callbacks : List Callback
deriving DecidableEq, Repr

/-- One framework call made by `run`, carrying the arguments the script
passes to it. -/
inductive Event where
  | from_pretrained_tokenizer (model_id : String)
  | from_pretrained_model (model_id : String) (load_in_8bit : Bool)
  | set_pad_token (value : Option String)
  | set_padding_side (value : String)
  | get_preprocessed_data (dataset_id : String) (tok : Tokenizer) (split : String)
  | model_train_mode
  | prepare_model_for_int8_training
  | get_peft_model (cfg : LoraConfig)
  | print_trainable_parameters
  | build_training_args (ta : TrainingArguments)
  | build_collator
  | enter_profiler (ctx : ProfilerCtx)
  | build_trainer (tr : Trainer)
  | trainer_train
  | exit_profiler
  | save_pretrained (dir : String)
deriving DecidableEq, Repr

/-- The environment a run executes in: the tokenizer state returned by
`CodeLlamaTokenizer.from_pretrained`, which the script then mutates. -/
structure Env where
  tokenizer0 : Tokenizer
deriving DecidableEq, Repr

/-- run.py line 96: max_steps is total_steps when the profiler is
enabled and -1 otherwise. -/
def mk_training_args (args : Args) (cfg : ConfigDict) (ep : Bool) : TrainingArguments :=
  { output_dir := args.output_dir
    overwrite_output_dir := true
    bf16 := true
    logging_dir := args.output_dir ++ "/logs"
    logging_strategy := "steps"
    logging_steps := 10
    save_strategy := "no"
    optim := "adamw_torch_fused"
    remove_unused_columns := false
    max_steps := if ep then (total_steps : Int) else -1
    learning_rate := cfg.learning_rate
    num_train_epochs := cfg.num_train_epochs
    gradient_accumulation_steps := cfg.gradient_accumulation_steps
    per_device_train_batch_size := cfg.per_device_train_batch_size
    gradient_checkpointing := cfg.gradient_checkpointing }

/-- The tokenizer after the mutations of run.py lines 16-17:
`tokenizer.pad_token = tokenizer.eos_token` then
`tokenizer.padding_side = "right"`. -/
def tokenizer_after_setup (env : Env) : Tokenizer :=
  { eos_token := env.tokenizer0.eos_token
    pad_token := env.tokenizer0.eos_token
    padding_side := "right" }

/-- The `TrainingArguments` value run.py builds, at `enable_profiler`
value `ep`. -/
def training_args_of (ep : Bool) (args : Args) : TrainingArguments :=
  mk_training_args args (config args peft_config) ep

/-- run.py line 102: the context entered by the `with` statement. -/
def profiler_of (ep : Bool) (args : Args) : ProfilerCtx :=
  if ep then ProfilerCtx.profile total_steps (args.output_dir ++ "/logs/tensorboard")
  else ProfilerCtx.nullcontext

/-- run.py line 112: the callbacks list passed to the trainer. -/
def callbacks_of (ep : Bool) : List Callback :=
  if ep then [Callback.profiler_callback] else []

/-- The `DualObjectiveTrainer` constructor arguments, run.py
lines 104-113. -/
def trainer_of (ep : Bool) (env : Env) (args : Args) : Trainer :=
  { alpha := args.alpha
    output_rationale := false
    training_args := training_args_of ep args
    tokenizer := tokenizer_after_setup env
    callbacks := callbacks_of ep }

/-- The body of `run` (run.py lines 13-118) as the trace of framework
calls it makes, parameterized by the value `ep` of the local constant
`enable_profiler` (line 49) so that both branches of the profiler
conditional are expressed; the shipped script fixes `ep := false`.  The
tokenizer mutations of lines 16-17 are recorded as events and reflected
in the tokenizer value passed to `get_preprocessed_data` (line 18) and
to the trainer (line 109). -/
def run_with (ep : Bool) (env : Env) (args : Args) : List Event :=
  [Event.from_pretrained_tokenizer args.model_id,
   Event.from_pretrained_model args.model_id args.load_in_8bit,
   Event.set_pad_token env.tokenizer0.eos_token,
   Event.set_padding_side "right",
   Event.get_preprocessed_data args.dataset_id (tokenizer_after_setup env) "train",
   Event.model_train_mode]
  ++ (if args.load_in_8bit then [Event.prepare_model_for_int8_training] else [])
  ++ [Event.get_peft_model peft_config,
      Event.print_trainable_parameters,
      Event.build_training_args (training_args_of ep args),
      Event.build_collator,
      Event.enter_profiler (profiler_of ep args),
      Event.build_trainer (trainer_of ep env args),
      Event.trainer_train,
      Event.exit_profiler,
      Event.save_pretrained args.output_dir]

/-- run.py line 49: the profiler switch is a local constant, not a
command-line flag. -/
def enable_profiler : Bool := false

/-- `run(args)` as shipped: `run_with` at the hard-coded
`enable_profiler` value. -/
def run (env : Env) (args : Args) : List Event :=
  run_with enable_profiler env args

/-- Modelled from the Hugging Face Trainer contract (external to this
repository): during training the trainer writes intermediate model
checkpoints into `output_dir` iff `save_strategy` is not "no". -/
def writes_checkpoints_during_training (ta : TrainingArguments) : Prop :=
  ta.save_strategy ≠ "no"

instance (ta : TrainingArguments) : Decidable (writes_checkpoints_during_training ta) := by
  unfold writes_checkpoints_during_training
  infer_instance

/-- A concrete environment for witnesses: a fresh CodeLlama tokenizer
has an eos token, no pad token, left padding. -/
def env0 : Env :=
  { tokenizer0 := { eos_token := some "</s>", pad_token := none, padding_side := "left" } }

/-- The empty command line: every flag omitted. -/
def cmdline0 : CmdLine :=
  { batch_size := none
    load_in_8bit := false
    output_dir := none
    model_id := none
    dataset_id := none
    alpha := none }

/-- The arguments of a flagless invocation. -/
def args0 : Args := parse_args cmdline0

example : Event.build_trainer (trainer_of false env0 args0) ∈ run env0 args0 := by
  simp [run, run_with, enable_profiler, args0, parse_args, cmdline0]

example : (trainer_of false env0 args0).alpha = 1/2 := rfl

/-- Every trainer built by `run` is the one described by `trainer_of`
at the shipped profiler setting. -/
theorem build_trainer_mem_run (env : Env) (args : Args) (tr : Trainer)
    (h : Event.build_trainer tr ∈ run env args) : tr = trainer_of false env args := by
  cases h8 : args.load_in_8bit <;>
    simp [run, run_with, enable_profiler, h8] at h <;> exact h

/-- `run` does build a trainer. -/
theorem build_trainer_exists (env : Env) (args : Args) :
    Event.build_trainer (trainer_of false env args) ∈ run env args := by
  cases h8 : args.load_in_8bit <;> simp [run, run_with, enable_profiler, h8]

/-- Every `TrainingArguments` record built by `run` is
`training_args_of false args`. -/
theorem build_training_args_mem_run (env : Env) (args : Args) (ta : TrainingArguments)
    (h : Event.build_training_args ta ∈ run env args) : ta = training_args_of false args := by
  cases h8 : args.load_in_8bit <;>
    simp [run, run_with, enable_profiler, h8] at h <;> exact h

/-- `run` does build a `TrainingArguments` record. -/
theorem build_training_args_exists (env : Env) (args : Args) :
    Event.build_training_args (training_args_of false args) ∈ run env args := by
  cases h8 : args.load_in_8bit <;> simp [run, run_with, enable_profiler, h8]

/-- Every LoRA config passed to `get_peft_model` by `run` is
`peft_config`. -/
theorem get_peft_model_mem_run (env : Env) (args : Args) (cfg : LoraConfig)
    (h : Event.get_peft_model cfg ∈ run env args) : cfg = peft_config := by
  cases h8 : args.load_in_8bit <;>
    simp [run, run_with, enable_profiler, h8] at h <;> exact h

/-- `run` does call `get_peft_model`. -/
theorem get_peft_model_exists (env : Env) (args : Args) :
    Event.get_peft_model peft_config ∈ run env args := by
  cases h8 : args.load_in_8bit <;> simp [run, run_with, enable_profiler, h8]

/-- Every call to `get_preprocessed_data` made by `run` passes the
dataset id from the flags, the mutated tokenizer, and the split
"train". -/
theorem get_preprocessed_data_mem_run (env : Env) (args : Args)
    (did : String) (tok : Tokenizer) (split : String)
    (h : Event.get_preprocessed_data did tok split ∈ run env args) :
    did = args.dataset_id ∧ tok = tokenizer_after_setup env ∧ split = "train" := by
  cases h8 : args.load_in_8bit <;>
    simp [run, run_with, enable_profiler, h8] at h <;> exact h

/-- Claim C1: for every invocation, the value of the --alpha
command-line flag is passed as the alpha argument to the
DualObjectiveTrainer constructor. -/
theorem alpha_flag_reaches_trainer (env : Env) (args : Args) :
    (∀ tr : Trainer, Event.build_trainer tr ∈ run env args → tr.alpha = args.alpha) ∧
    Event.build_trainer (trainer_of false env args) ∈ run env args ∧
    (trainer_of false env args).alpha = args.alpha := by
  refine ⟨?_, build_trainer_exists env args, rfl⟩
  intro tr h
  rw [build_trainer_mem_run env args tr h]
  rfl

/-- Witness for C1 at the flagless invocation: the trainer built there
carries alpha = 0.5. -/
theorem alpha_flag_reaches_trainer_witness :
    (trainer_of false env0 args0).alpha = args0.alpha ∧ args0.alpha = 1/2 :=
  ⟨(alpha_flag_reaches_trainer env0 args0).1 (trainer_of false env0 args0)
    (by simp [run, run_with, enable_profiler]), rfl⟩

/-- Claim C6: for every invocation, the --batch_size flag value is
passed unchanged as per_device_train_batch_size of the
TrainingArguments given to the trainer. -/
theorem batch_size_flag_reaches_training_args (env : Env) (args : Args) :
    (∀ ta, Event.build_training_args ta ∈ run env args →
        ta.per_device_train_batch_size = args.batch_size) ∧
    (∀ tr, Event.build_trainer tr ∈ run env args →
        tr.training_args.per_device_train_batch_size = args.batch_size) ∧
    Event.build_training_args (training_args_of false args) ∈ run env args := by
  refine ⟨?_, ?_, build_training_args_exists env args⟩
  · intro ta h
    rw [build_training_args_mem_run env args ta h]
    rfl
  · intro tr h
    rw [build_trainer_mem_run env args tr h]
    rfl

/-- Witness for C6 at the flagless invocation: the batch size reaching
the TrainingArguments is the default 8. -/
theorem batch_size_flag_reaches_training_args_witness :
    (training_args_of false args0).per_device_train_batch_size = args0.batch_size ∧
    args0.batch_size = 8 :=
  ⟨(batch_size_flag_reaches_training_args env0 args0).1 (training_args_of false args0)
    (by simp [run, run_with, enable_profiler]), rfl⟩

/-- Claim C10: the LoRA configuration, the fixed training
hyperparameters, and output_rationale = False are constants of the
script, independent of flags and environment. -/
theorem fixed_hyperparameters (env : Env) (args : Args) :
    (∀ cfg, Event.get_peft_model cfg ∈ run env args →
      cfg.task_type = TaskType.CAUSAL_LM ∧ cfg.inference_mode = false ∧
      cfg.r = 8 ∧ cfg.lora_alpha = 32 ∧ cfg.lora_dropout = 5/100 ∧
      cfg.target_modules = ["q_proj", "v_proj"]) ∧
    (∀ ta, Event.build_training_args ta ∈ run env args →
      ta.learning_rate = 1/10000 ∧ ta.num_train_epochs = 1 ∧
      ta.gradient_accumulation_steps = 2 ∧ ta.gradient_checkpointing = false ∧
      ta.bf16 = true ∧ ta.save_strategy = "no" ∧ ta.optim = "adamw_torch_fused") ∧
    (∀ tr, Event.build_trainer tr ∈ run env args → tr.output_rationale = false) := by
  refine ⟨?_, ?_, ?_⟩
  · intro cfg h
    rw [get_peft_model_mem_run env args cfg h]
    exact ⟨rfl, rfl, rfl, rfl, rfl, rfl⟩
  · intro ta h
    rw [build_training_args_mem_run env args ta h]
    exact ⟨rfl, rfl, rfl, rfl, rfl, rfl, rfl⟩
  · intro tr h
    rw [build_trainer_mem_run env args tr h]
    rfl

/-- Witness for C10 at the flagless invocation. -/
theorem fixed_hyperparameters_witness :
    peft_config.r = 8 ∧
    (training_args_of false args0).learning_rate = 1/10000 ∧
    (trainer_of false env0 args0).output_rationale = false := by
  have h := fixed_hyperparameters env0 args0
  refine ⟨(h.1 peft_config (by simp [run, run_with, enable_profiler])).2.2.1, ?_, ?_⟩
  · exact (h.2.1 (training_args_of false args0)
      (by simp [run, run_with, enable_profiler])).1
  · exact h.2.2 (trainer_of false env0 args0)
      (by simp [run, run_with, enable_profiler])

/-- Claim C4: for every command line, each omitted flag receives its
declared default. -/
theorem parser_defaults (c : CmdLine) :
    (c.batch_size = none → (parse_args c).batch_size = 8) ∧
    (c.load_in_8bit = false → (parse_args c).load_in_8bit = false) ∧
    (c.output_dir = none → (parse_args c).output_dir = "tmp") ∧
    (c.model_id = none → (parse_args c).model_id = "codellama/CodeLlama-7b-hf") ∧
    (c.dataset_id = none → (parse_args c).dataset_id = "zhaospei/cmg_allinone") ∧
    (c.alpha = none → (parse_args c).alpha = 1/2) := by
  refine ⟨?_, ?_, ?_, ?_, ?_, ?_⟩ <;> intro h <;> simp [parse_args, h]

/-- Witness for C4: the flagless command line yields all six
defaults. -/
theorem parser_defaults_witness :
    (parse_args cmdline0).batch_size = 8 ∧
    (parse_args cmdline0).load_in_8bit = false ∧
    (parse_args cmdline0).output_dir = "tmp" ∧
    (parse_args cmdline0).model_id = "codellama/CodeLlama-7b-hf" ∧
    (parse_args cmdline0).dataset_id = "zhaospei/cmg_allinone" ∧
    (parse_args cmdline0).alpha = 1/2 :=
  ⟨(parser_defaults cmdline0).1 rfl,
   (parser_defaults cmdline0).2.1 rfl,
   (parser_defaults cmdline0).2.2.1 rfl,
   (parser_defaults cmdline0).2.2.2.1 rfl,
   (parser_defaults cmdline0).2.2.2.2.1 rfl,
   (parser_defaults cmdline0).2.2.2.2.2 rfl⟩

/-- Claim C3: the model is loaded with load_in_8bit from the flag,
prepare_model_for_int8_training runs iff the flag is set, and in every
case the model is wrapped via get_peft_model before training. -/
theorem int8_and_lora_wrapping (env : Env) (args : Args) :
    Event.from_pretrained_model args.model_id args.load_in_8bit ∈ run env args ∧
    (Event.prepare_model_for_int8_training ∈ run env args ↔ args.load_in_8bit = true) ∧
    List.Sublist [Event.get_peft_model peft_config, Event.trainer_train] (run env args) := by
  refine ⟨?_, ?_, ?_⟩
  · cases h8 : args.load_in_8bit <;> simp [run, run_with, enable_profiler, h8]
  · cases h8 : args.load_in_8bit <;> simp [run, run_with, enable_profiler, h8]
  · cases h8 : args.load_in_8bit <;>
      simp only [run, run_with, enable_profiler, h8, if_true, if_false,
        List.cons_append, List.nil_append, Bool.false_eq_true, ite_false, ite_true] <;>
      repeat first
        | exact List.nil_sublist _
        | apply List.Sublist.cons₂
        | apply List.Sublist.cons

/-- The trace of a run with the 8-bit flag unset, written out. -/
theorem run_eq_of_flag_false (env : Env) (args : Args) (h8 : args.load_in_8bit = false) :
    run env args =
      [Event.from_pretrained_tokenizer args.model_id,
       Event.from_pretrained_model args.model_id false,
       Event.set_pad_token env.tokenizer0.eos_token,
       Event.set_padding_side "right",
       Event.get_preprocessed_data args.dataset_id (tokenizer_after_setup env) "train",
       Event.model_train_mode,
       Event.get_peft_model peft_config,
       Event.print_trainable_parameters,
       Event.build_training_args (training_args_of false args),
       Event.build_collator,
       Event.enter_profiler (profiler_of false args),
       Event.build_trainer (trainer_of false env args),
       Event.trainer_train,
       Event.exit_profiler,
       Event.save_pretrained args.output_dir] := by
  simp [run, run_with, enable_profiler, h8]

/-- The trace of a run with the 8-bit flag set, written out. -/
theorem run_eq_of_flag_true (env : Env) (args : Args) (h8 : args.load_in_8bit = true) :
    run env args =
      [Event.from_pretrained_tokenizer args.model_id,
       Event.from_pretrained_model args.model_id true,
       Event.set_pad_token env.tokenizer0.eos_token,
       Event.set_padding_side "right",
       Event.get_preprocessed_data args.dataset_id (tokenizer_after_setup env) "train",
       Event.model_train_mode,
       Event.prepare_model_for_int8_training,
       Event.get_peft_model peft_config,
       Event.print_trainable_parameters,
       Event.build_training_args (training_args_of false args),
       Event.build_collator,
       Event.enter_profiler (profiler_of false args),
       Event.build_trainer (trainer_of false env args),
       Event.trainer_train,
       Event.exit_profiler,
       Event.save_pretrained args.output_dir] := by
  simp [run, run_with, enable_profiler, h8]

/-- Claim C5: the steps run in the spec's order: tokenizer and model
load first, then adapter wrapping, then the training configuration,
then collator and trainer, then training; saving the adapter weights is
the final operation of run. -/
theorem run_step_order (env : Env) (args : Args) :
    (run env args).head? = some (Event.from_pretrained_tokenizer args.model_id) ∧
    (run env args).get? 1 = some (Event.from_pretrained_model args.model_id args.load_in_8bit) ∧
    List.Sublist
      [Event.from_pretrained_model args.model_id args.load_in_8bit,
       Event.get_peft_model peft_config,
       Event.build_training_args (training_args_of false args),
       Event.build_collator,
       Event.build_trainer (trainer_of false env args),
       Event.trainer_train,
       Event.save_pretrained args.output_dir]
      (run env args) ∧
    (run env args).getLast? = some (Event.save_pretrained args.output_dir) := by
  cases h8 : args.load_in_8bit
  · rw [run_eq_of_flag_false env args h8]
    refine ⟨rfl, rfl, ?_, rfl⟩
    repeat first
      | exact List.nil_sublist _
      | apply List.Sublist.cons₂
      | apply List.Sublist.cons
  · rw [run_eq_of_flag_true env args h8]
    refine ⟨rfl, rfl, ?_, rfl⟩
    repeat first
      | exact List.nil_sublist _
      | apply List.Sublist.cons₂
      | apply List.Sublist.cons

/-- Claim C2: both profiler branches exist, selected by the local
enable_profiler constant: with it true a ProfilerCallback is attached
and max_steps is the profiler schedule total (8); with it false the
callbacks list is empty, max_steps is -1 and the entered context is
nullcontext.  The shipped script takes the false branch. -/
theorem profiler_attachment_optional (env : Env) (args : Args) :
    (∃ ep : Bool, (trainer_of ep env args).callbacks = [Callback.profiler_callback] ∧
       (trainer_of ep env args).training_args.max_steps = (total_steps : Int) ∧
       Event.build_trainer (trainer_of ep env args) ∈ run_with ep env args) ∧
    (∃ ep : Bool, (trainer_of ep env args).callbacks = [] ∧
       (trainer_of ep env args).training_args.max_steps = -1 ∧
       Event.enter_profiler ProfilerCtx.nullcontext ∈ run_with ep env args) ∧
    total_steps = 8 ∧
    run env args = run_with false env args := by
  refine ⟨⟨true, rfl, rfl, ?_⟩, ⟨false, rfl, rfl, ?_⟩, rfl, rfl⟩
  · cases h8 : args.load_in_8bit <;> simp [run_with, h8]
  · cases h8 : args.load_in_8bit <;> simp [run_with, profiler_of, h8]

/-- Claim C9: in every invocation the tokenizer is mutated (pad_token
:= eos_token, padding_side := "right") before the dataset is
preprocessed and before the trainer is constructed, and the tokenizer
passed to both has pad_token = eos_token and padding_side "right". -/
theorem tokenizer_setup_invariant (env : Env) (args : Args) :
    (∀ did tok split, Event.get_preprocessed_data did tok split ∈ run env args →
      tok.pad_token = tok.eos_token ∧ tok.padding_side = "right") ∧
    (∀ tr, Event.build_trainer tr ∈ run env args →
      tr.tokenizer.pad_token = tr.tokenizer.eos_token ∧
      tr.tokenizer.padding_side = "right") ∧
    List.Sublist
      [Event.set_pad_token env.tokenizer0.eos_token,
       Event.set_padding_side "right",
       Event.get_preprocessed_data args.dataset_id (tokenizer_after_setup env) "train",
       Event.build_trainer (trainer_of false env args)]
      (run env args) := by
  refine ⟨?_, ?_, ?_⟩
  · intro did tok split h
    rw [(get_preprocessed_data_mem_run env args did tok split h).2.1]
    exact ⟨rfl, rfl⟩
  · intro tr h
    rw [build_trainer_mem_run env args tr h]
    exact ⟨rfl, rfl⟩
  · cases h8 : args.load_in_8bit <;>
      simp only [run, run_with, enable_profiler, h8, List.cons_append, List.nil_append,
        Bool.false_eq_true, ite_false, ite_true] <;>
      repeat first
        | exact List.nil_sublist _
        | apply List.Sublist.cons₂
        | apply List.Sublist.cons

/-- Witness for C9 at the flagless invocation: the tokenizer passed to
get_preprocessed_data and the trainer's tokenizer satisfy the
invariant. -/
theorem tokenizer_setup_invariant_witness :
    ((tokenizer_after_setup env0).pad_token = (tokenizer_after_setup env0).eos_token ∧
      (tokenizer_after_setup env0).padding_side = "right") ∧
    ((trainer_of false env0 args0).tokenizer.pad_token =
        (trainer_of false env0 args0).tokenizer.eos_token ∧
      (trainer_of false env0 args0).tokenizer.padding_side = "right") :=
  ⟨(tokenizer_setup_invariant env0 args0).1 args0.dataset_id (tokenizer_after_setup env0)
      "train" (by simp [run, run_with, enable_profiler]),
   (tokenizer_setup_invariant env0 args0).2.1 (trainer_of false env0 args0)
      (by simp [run, run_with, enable_profiler])⟩

/-- The outcomes of the fallible framework calls `run` makes, in one
invocation: each call either returns (ok) or raises an exception of
type ε. -/
structure CallResults (ε : Type) where
  load_tokenizer : Except ε Unit
  load_model : Except ε Unit
  load_dataset : Except ε Unit
  prepare_int8 : Except ε Unit
  peft_wrap : Except ε Unit
  train : Except ε Unit
  save : Except ε Unit

/-- `run` with exceptions: the script has no try/except on any path, so
the framework calls are sequenced by plain monadic bind in Except
(raising aborts the rest and propagates the exception unchanged).  The
int8 preparation call happens only when the flag is set (run.py
line 40). -/
def run_exc {ε : Type} (r : CallResults ε) (env : Env) (args : Args) :
    Except ε (List Event) := do
  r.load_tokenizer
  r.load_model
  r.load_dataset
  if args.load_in_8bit then r.prepare_int8 else pure ()
  r.peft_wrap
  r.train
  r.save
  pure (run env args)

/-- The fallible calls of one invocation, in program order. -/
def call_sequence {ε : Type} (r : CallResults ε) (args : Args) :
    List (Except ε Unit) :=
  [r.load_tokenizer, r.load_model, r.load_dataset]
  ++ (if args.load_in_8bit then [r.prepare_int8] else [])
  ++ [r.peft_wrap, r.train, r.save]

/-- The first exception raised along a sequence of call outcomes. -/
def first_error {ε : Type} : List (Except ε Unit) → Option ε
  | [] => none
  | Except.error e :: _ => some e
  | Except.ok _ :: rest => first_error rest

/-- Claim C7: no exception handler exists on any path: the first
exception raised by a framework call propagates out of run unchanged,
and run completes (returning its trace) exactly when every call
succeeds. -/
theorem exceptions_propagate_unhandled {ε : Type} (r : CallResults ε)
    (env : Env) (args : Args) :
    run_exc r env args =
      (match first_error (call_sequence r args) with
        | some e => Except.error e
        | none => Except.ok (run env args)) := by
  obtain ⟨t, m, d, i, p, tr, s⟩ := r
  cases h8 : args.load_in_8bit <;>
    cases t <;> cases m <;> cases d <;> cases i <;> cases p <;> cases tr <;> cases s <;>
      simp [run_exc, call_sequence, first_error, h8, Bind.bind, Except.bind,
        Pure.pure, Except.pure]

/-- Claim C8 as stated is false at the flagless invocation: the adapter
weights are saved to output_dir and the logging directory is
output_dir/logs, but save_strategy is "no", so the trainer writes no
model checkpoints during training. -/
theorem output_dir_checkpoints_claim_false :
    ¬ (Event.save_pretrained args0.output_dir ∈ run env0 args0 ∧
       (training_args_of false args0).logging_dir = args0.output_dir ++ "/logs" ∧
       writes_checkpoints_during_training (training_args_of false args0)) := by
  intro h
  exact h.2.2 rfl

/-- Claim C8 amended: output_dir is the destination for the final
adapter weights and the logs (it is the TrainingArguments output_dir
and logging_dir is output_dir/logs), but save_strategy is "no", so no
intermediate checkpoints are written there during training; the only
model artifact is the final save_pretrained(output_dir). -/
theorem output_dir_destination (env : Env) (args : Args) :
    Event.save_pretrained args.output_dir ∈ run env args ∧
    (∀ ta, Event.build_training_args ta ∈ run env args →
      ta.output_dir = args.output_dir ∧
      ta.logging_dir = args.output_dir ++ "/logs" ∧
      ¬ writes_checkpoints_during_training ta) := by
  constructor
  · cases h8 : args.load_in_8bit <;> simp [run, run_with, enable_profiler, h8]
  · intro ta h
    rw [build_training_args_mem_run env args ta h]
    exact ⟨rfl, rfl, fun hc => hc rfl⟩

/-- Witness for the amended C8 at the flagless invocation. -/
theorem output_dir_destination_witness :
    (training_args_of false args0).output_dir = args0.output_dir ∧
    (training_args_of false args0).logging_dir = args0.output_dir ++ "/logs" ∧
    ¬ writes_checkpoints_during_training (training_args_of false args0) :=
  (output_dir_destination env0 args0).2 (training_args_of false args0)
    (by simp [run, run_with, enable_profiler])

end RunPy
